import Mathlib

/-!
Verification of the movie data-access layer: a shallow embedding of
`pkg/models` MovieQueryBuilder and the `pkg/api` movie mutation resolvers.

The database is modelled as explicit state: a list of movie rows, the
movies_scenes join table and the movies_images sidecar table.  Go byte
slices are modelled as `Option (List Nat)` where `none` is the Go nil
slice (stored as SQL NULL) and `some l` is a non-nil slice (possibly
empty).  Nullable SQL columns are `Option` values; a partial patch field
is `Option (Option _)`: absent, present-null, present-value.

Storage-engine failures (needed for the batch-abort property) are
modelled by a set of ids on which the generic delete helper fails.
-/

set_option autoImplicit false

namespace Stash

/-- Go byte slice: `none` is the nil slice, `some l` a non-nil slice. -/
abbrev GoBytes := Option (List Nat)

/-- Go `len` of a byte slice: a nil slice has length 0. -/
def goLen : GoBytes → Nat
  | none => 0
  | some l => l.length

/-- A row of the `movies` table (Go struct `models.Movie`; `sql.Null*`
fields become `Option`, timestamps become `Nat`). -/
structure Movie where
  id : Nat
  checksum : String
  name : Option String
  aliases : Option String
  duration : Option Int
  date : Option String
  rating : Option Int
  studio_id : Option Int
  director : Option String
  synopsis : Option String
  url : Option String
  created_at : Nat
  updated_at : Nat
deriving DecidableEq

/-- The Go struct `models.MoviePartial`: every field is a pointer, so a
field is `none` (absent from the patch) or `some v` (present, where `v`
itself may be an explicit SQL NULL for the nullable columns). -/
structure MoviePartial where
  id : Nat
  checksum : Option String
  name : Option (Option String)
  aliases : Option (Option String)
  duration : Option (Option Int)
  date : Option (Option String)
  rating : Option (Option Int)
  studio_id : Option (Option Int)
  director : Option (Option String)
  synopsis : Option (Option String)
  url : Option (Option String)
  updated_at : Option Nat
deriving DecidableEq

/-- Database state: the three tables, the autoincrement counter of the
movies table, and the set of ids on which the storage engine fails a
delete (used to model engine errors for the batch-abort property). -/
structure DB where
  movies : List Movie
  movies_scenes : List (Nat × Nat)
  movies_images : List (Nat × GoBytes × GoBytes)
  nextId : Nat
  failIds : List Nat
deriving DecidableEq

/-- Helper for building a SET-list: a single column name when the field
is present, nothing otherwise. -/
def keyIf (b : Bool) (s : String) : List String :=
  if b then [s] else []

/-- Modelled from the spec: the generic helper `SQLGenKeysPartial` (not
under src/) that generates the UPDATE SET-list from a partial patch.
Per the partial-update translator contract, a field appears in the
SET-list exactly when it is present in the patch (a present field with
an explicit null value is still written).  Modelled as the list of
column names written. -/
def SQLGenKeysPartial (p : MoviePartial) : List String :=
  keyIf p.checksum.isSome "checksum" ++
  keyIf p.name.isSome "name" ++
  keyIf p.aliases.isSome "aliases" ++
  keyIf p.duration.isSome "duration" ++
  keyIf p.date.isSome "date" ++
  keyIf p.rating.isSome "rating" ++
  keyIf p.studio_id.isSome "studio_id" ++
  keyIf p.director.isSome "director" ++
  keyIf p.synopsis.isSome "synopsis" ++
  keyIf p.url.isSome "url" ++
  keyIf p.updated_at.isSome "updated_at"

/-- The effect of executing the generated `UPDATE movies SET ...` on one
row: every present patch field overwrites the column (an explicit null
writes NULL), every absent field leaves the column untouched. -/
def applySet (p : MoviePartial) (m : Movie) : Movie :=
  { m with
    checksum := p.checksum.getD m.checksum
    name := p.name.getD m.name
    aliases := p.aliases.getD m.aliases
    duration := p.duration.getD m.duration
    date := p.date.getD m.date
    rating := p.rating.getD m.rating
    studio_id := p.studio_id.getD m.studio_id
    director := p.director.getD m.director
    synopsis := p.synopsis.getD m.synopsis
    url := p.url.getD m.url
    updated_at := p.updated_at.getD m.updated_at }

/-- `MovieQueryBuilder.Find`: SELECT * FROM movies WHERE id = ? LIMIT 1,
via queryMovie, which returns the first row or nil without error. -/
def MovieQueryBuilder.Find (id : Nat) (db : DB) : Option Movie :=
  db.movies.find? (fun m => m.id == id)

/-- `MovieQueryBuilder.Update`: executes the generated UPDATE on every
row matching the patch id (NamedExec), then re-reads via Find.  The Go
function returns `(*Movie, error)`; a missing row is NOT an error: Find
returns nil with a nil error, so the result is `ok none`. -/
def MovieQueryBuilder.Update (p : MoviePartial) (db : DB) :
    Except String (Option Movie) × DB :=
  let movies2 := db.movies.map (fun m => if m.id = p.id then applySet p m else m)
  let db2 := { db with movies := movies2 }
  (Except.ok (MovieQueryBuilder.Find p.id db2), db2)

/-- `MovieQueryBuilder.Create`: INSERT assigning the next autoincrement
id, then re-read the stored row by LastInsertId. -/
def MovieQueryBuilder.Create (m : Movie) (db : DB) : Option Movie × DB :=
  let m2 := { m with id := db.nextId }
  let db2 := { db with movies := db.movies ++ [m2], nextId := db.nextId + 1 }
  (MovieQueryBuilder.Find m2.id db2, db2)

/-- Modelled from the spec: the generic helper `executeDeleteQuery` (not
under src/) that deletes the entity row by id.  A storage-engine failure
is modelled by membership of the id in `DB.failIds`. -/
def executeDeleteQuery (id : Nat) (db : DB) : Except String DB :=
  if db.failIds.contains id then Except.error "storage error"
  else Except.ok { db with movies := db.movies.filter (fun m => m.id != id) }

/-- `MovieQueryBuilder.Destroy`: first DELETE FROM movies_scenes WHERE
movie_id = ?, then delete the movies row via executeDeleteQuery. -/
def MovieQueryBuilder.Destroy (id : Nat) (db : DB) : Except String DB :=
  executeDeleteQuery id
    { db with movies_scenes := db.movies_scenes.filter (fun r => r.1 != id) }

/-- `MovieQueryBuilder.FindMany`: looks every id up in input order and
fails fast with a not-found error on the first id with no row. -/
def MovieQueryBuilder.FindMany (ids : List Nat) (db : DB) :
    Except String (List Movie) :=
  match ids with
  | [] => Except.ok []
  | id :: rest =>
    match MovieQueryBuilder.Find id db with
    | none => Except.error ("movie with id " ++ toString id ++ " not found")
    | some m => (MovieQueryBuilder.FindMany rest db).map (fun ms => m :: ms)

/-- `MovieQueryBuilder.DestroyMovieImages`: DELETE FROM movies_images
WHERE movie_id = ?. -/
def MovieQueryBuilder.DestroyMovieImages (movieID : Nat) (db : DB) : DB :=
  { db with movies_images := db.movies_images.filter (fun r => r.1 != movieID) }

/-- `MovieQueryBuilder.UpdateMovieImages`: delete the existing sidecar
row, then INSERT the new one. -/
def MovieQueryBuilder.UpdateMovieImages (movieID : Nat)
    (frontImage backImage : GoBytes) (db : DB) : DB :=
  let db2 := MovieQueryBuilder.DestroyMovieImages movieID db
  { db2 with movies_images := db2.movies_images ++ [(movieID, frontImage, backImage)] }

/-- The movies_images row for an id, if any. -/
def getImageRow (movieID : Nat) (db : DB) : Option (Nat × GoBytes × GoBytes) :=
  db.movies_images.find? (fun r => r.1 == movieID)

/-- `MovieQueryBuilder.GetFrontImage`.  The underlying `getImage` helper
is not under src/; modelled from the spec: a point read returning empty
(nil, not an error) when no sidecar row exists. -/
def MovieQueryBuilder.GetFrontImage (movieID : Nat) (db : DB) : GoBytes :=
  match getImageRow movieID db with
  | some r => r.2.1
  | none => none

/-- `MovieQueryBuilder.GetBackImage`, same modelling as GetFrontImage. -/
def MovieQueryBuilder.GetBackImage (movieID : Nat) (db : DB) : GoBytes :=
  match getImageRow movieID db with
  | some r => r.2.2
  | none => none

/-- The hydration loop of `MovieQueryBuilder.Query`: for each id of the
id-query result, Find is called, its error discarded, and the resulting
pointer (possibly nil) appended to the record list. -/
def queryHydrate (ids : List Nat) (db : DB) : List (Option Movie) :=
  ids.map (fun id => MovieQueryBuilder.Find id db)

/-- The per-id loop body of the resolver `MoviesDestroy`: destroy each
id in turn inside the shared transaction, stopping at the first error. -/
def destroyLoop (ids : List Nat) (db : DB) : Except String DB :=
  match ids with
  | [] => Except.ok db
  | id :: rest =>
    match MovieQueryBuilder.Destroy id db with
    | Except.ok db2 => destroyLoop rest db2
    | Except.error e => Except.error e

/-- The resolver `MoviesDestroy`: one transaction around the destroy
loop; an error rolls the whole transaction back (the original state is
kept) and returns false, success commits and returns true. -/
def MoviesDestroy (ids : List Nat) (db : DB) : Bool × DB :=
  match destroyLoop ids db with
  | Except.ok db2 => (true, db2)
  | Except.error _ => (false, db)

/-- Modelled from the spec: the external checksum utility
`utils.MD5FromString` (hash from string to checksum). -/
def MD5FromString (s : String) : String :=
  "md5:" ++ s

/-- Modelled from the spec: the external base64 image decoder
`utils.ProcessBase64Image`, which supplies the decoded binary payload
of an image string.  Modelled as an injective decoding to bytes. -/
def ProcessBase64Image (s : String) : List Nat :=
  s.data.map Char.toNat

/-- Modelled from the spec: `models.DefaultMovieImage` (not under
src/), the defined default front-image payload, a fixed non-empty
image string. -/
def DefaultMovieImage : String :=
  "default-front-image"

/-- Go `strconv.ParseInt` with the error ignored as in the resolvers:
an unparsable string yields 0. -/
def parseInt64 (s : String) : Int :=
  (s.toInt?).getD 0

/-- The GraphQL input `models.MovieCreateInput` (string-typed wire
fields; images are base64 strings). -/
structure MovieCreateInput where
  name : String
  aliases : Option String := none
  duration : Option Int := none
  date : Option String := none
  rating : Option Int := none
  studio_id : Option String := none
  director : Option String := none
  synopsis : Option String := none
  url : Option String := none
  front_image : Option String := none
  back_image : Option String := none

/-- The GraphQL input `models.MovieUpdateInput`. -/
structure MovieUpdateInput where
  id : Nat
  name : Option String := none
  aliases : Option String := none
  duration : Option Int := none
  date : Option String := none
  rating : Option Int := none
  studio_id : Option String := none
  director : Option String := none
  synopsis : Option String := none
  url : Option String := none
  front_image : Option String := none
  back_image : Option String := none

/-- Modelled from the spec: the changeset translator field test
(`translator.hasField`), true when the field name is in the explicit
presence set of the inbound request. -/
def hasField (inputMap : List String) (field : String) : Bool :=
  inputMap.contains field

/-- Modelled from the spec: the changeset translator conversions
(`translator.nullString` and friends, not under src/).  A field is
written into the patch exactly when its name is in the presence set;
a present field whose wire value is null becomes an explicit SQL NULL
(the inner `none`). -/
def translateField {A : Type} (inputMap : List String) (v : Option A)
    (field : String) : Option (Option A) :=
  if inputMap.contains field then some v else none

/-- The patch built by the resolver `MovieUpdate`: id and updated_at
are always present; name and checksum are present exactly when the wire
name is non-null (checksum recomputed from the new name); every other
field goes through the changeset translator against the presence set. -/
def movieUpdatePatch (inputMap : List String) (input : MovieUpdateInput)
    (now : Nat) : MoviePartial :=
  { id := input.id
    updated_at := some now
    name := input.name.map some
    checksum := input.name.map MD5FromString
    aliases := translateField inputMap input.aliases "aliases"
    duration := translateField inputMap input.duration "duration"
    date := translateField inputMap input.date "date"
    rating := translateField inputMap input.rating "rating"
    studio_id := translateField inputMap (input.studio_id.map parseInt64) "studio_id"
    director := translateField inputMap input.director "director"
    synopsis := translateField inputMap input.synopsis "synopsis"
    url := translateField inputMap input.url "url" }

/-- The image section of the resolver `MovieUpdate` (after the movies
row update): when either image field is in the presence set, the one
that is not included is read back from the sidecar table; if both
resulting payloads are empty the sidecar row is destroyed; otherwise a
nil front with a non-nil back is replaced by the decoded default image
and the row is destroyed and recreated with the two payloads. -/
def movieUpdateImagesApply (movieID : Nat) (frontIncluded backIncluded : Bool)
    (frontData backData : GoBytes) (db : DB) : DB :=
  if frontIncluded || backIncluded then
    let front1 := if frontIncluded then frontData
      else MovieQueryBuilder.GetFrontImage movieID db
    let back1 := if backIncluded then backData
      else MovieQueryBuilder.GetBackImage movieID db
    if goLen front1 == 0 && goLen back1 == 0 then
      MovieQueryBuilder.DestroyMovieImages movieID db
    else
      let front2 := if front1.isNone && back1.isSome then
        some (ProcessBase64Image DefaultMovieImage) else front1
      MovieQueryBuilder.UpdateMovieImages movieID front2 back1 db
  else db

/-- The resolver `MovieUpdate`: build the patch, run the row update and
re-read, then apply the image section when an image field is present.
In Go a nil re-read row with an image field present dereferences a nil
pointer at movie.ID; that run is modelled as an error. -/
def MovieUpdate (inputMap : List String) (input : MovieUpdateInput)
    (now : Nat) (db : DB) : Except String (Option Movie × DB) :=
  let patch := movieUpdatePatch inputMap input now
  let frontIncluded := hasField inputMap "front_image"
  let backIncluded := hasField inputMap "back_image"
  let frontData := input.front_image.map ProcessBase64Image
  let backData := input.back_image.map ProcessBase64Image
  match MovieQueryBuilder.Update patch db with
  | (Except.error e, _) => Except.error e
  | (Except.ok optMovie, db2) =>
    if frontIncluded || backIncluded then
      match optMovie with
      | none => Except.error "runtime error: nil movie"
      | some movie =>
        Except.ok (some movie,
          movieUpdateImagesApply movie.id frontIncluded backIncluded
            frontData backData db2)
    else Except.ok (optMovie, db2)

/-- The movie row populated from a create input by the resolver
`MovieCreate` (checksum derived from the name, both timestamps set to
now); the id is assigned by the INSERT. -/
def createdMovie (input : MovieCreateInput) (now : Nat) (newId : Nat) : Movie :=
  { id := newId
    checksum := MD5FromString input.name
    name := some input.name
    aliases := input.aliases
    duration := input.duration
    date := input.date
    rating := input.rating
    studio_id := input.studio_id.map parseInt64
    director := input.director
    synopsis := input.synopsis
    url := input.url
    created_at := now
    updated_at := now }

/-- The resolver `MovieCreate`: checksum from the name; when the wire
front image is null and the back image non-null, the front image input
is replaced by the default image before decoding; the movies row is
inserted and re-read; the sidecar row is written only when the decoded
front payload is non-empty. -/
def MovieCreate (input : MovieCreateInput) (now : Nat) (db : DB) :
    Except String (Movie × DB) :=
  let front0 := if input.front_image.isNone && input.back_image.isSome then
    some DefaultMovieImage else input.front_image
  let frontData : GoBytes := front0.map ProcessBase64Image
  let backData : GoBytes := input.back_image.map ProcessBase64Image
  let newMovie : Movie := createdMovie input now 0
  match MovieQueryBuilder.Create newMovie db with
  | (none, _) => Except.error "sql: no rows in result set"
  | (some movie, db2) =>
    if 0 < goLen frontData then
      Except.ok (movie,
        MovieQueryBuilder.UpdateMovieImages movie.id frontData backData db2)
    else Except.ok (movie, db2)

/-- The sort direction enum of `models.FindFilterType`. -/
inductive SortDirectionEnum where
  | ASC
  | DESC
deriving DecidableEq

/-- The find filter `models.FindFilterType` (query text, pagination,
sort key and direction, all optional). -/
structure FindFilterType where
  q : Option String := none
  page : Option Int := none
  per_page : Option Int := none
  sort : Option String := none
  direction : Option SortDirectionEnum := none

/-- Modelled from the spec: `FindFilterType.GetSort` (not under src/)
returns the requested sort key or the given default when none is set. -/
def FindFilterType.GetSort (ff : FindFilterType) (defaultSort : String) : String :=
  ff.sort.getD defaultSort

/-- Modelled from the spec: `FindFilterType.GetDirection` (not under
src/) returns DESC when requested and ASC otherwise. -/
def FindFilterType.GetDirection (ff : FindFilterType) : String :=
  match ff.direction with
  | some SortDirectionEnum.DESC => "DESC"
  | _ => "ASC"

/-- The generic helper `getColumn`: table-qualified column name. -/
def getColumn (tableName col : String) : String :=
  tableName ++ "." ++ col

/-- Modelled from the spec: the generic helper `getSort` (not under
src/) building a standard ORDER BY clause with no special collation. -/
def getSort (sort direction tableName : String) : String :=
  " ORDER BY " ++ tableName ++ "." ++ sort ++ " " ++ direction

/-- `MovieQueryBuilder.getMovieSort`: default sort is name ascending;
sorting by name always uses the NATURAL_CS collation override (issue
943), any other key uses the standard clause. -/
def getMovieSort (findFilter : Option FindFilterType) : String :=
  let sort := match findFilter with
    | none => "name"
    | some ff => ff.GetSort "name"
  let direction := match findFilter with
    | none => "ASC"
    | some ff => ff.GetDirection
  if sort = "name" then
    " ORDER BY " ++ getColumn "movies" sort ++ " COLLATE NATURAL_CS " ++ direction
  else getSort sort direction "movies"

/-- The scalar movie columns routed through the changeset translator
by the resolver MovieUpdate (name, checksum, id and updated_at are
handled separately there). -/
inductive MField where
  | aliases
  | duration
  | date
  | rating
  | studio_id
  | director
  | synopsis
  | url
deriving DecidableEq

/-- A scalar column value (text or integer). -/
inductive Scalar where
  | str (v : String)
  | int (v : Int)
deriving DecidableEq

/-- The SQL column name of a translator-routed field. -/
def MField.col : MField → String
  | .aliases => "aliases"
  | .duration => "duration"
  | .date => "date"
  | .rating => "rating"
  | .studio_id => "studio_id"
  | .director => "director"
  | .synopsis => "synopsis"
  | .url => "url"

/-- The stored column value of a movie row for a translator-routed
field. -/
def movieField (m : Movie) (f : MField) : Option Scalar :=
  match f with
  | .aliases => m.aliases.map Scalar.str
  | .duration => m.duration.map Scalar.int
  | .date => m.date.map Scalar.str
  | .rating => m.rating.map Scalar.int
  | .studio_id => m.studio_id.map Scalar.int
  | .director => m.director.map Scalar.str
  | .synopsis => m.synopsis.map Scalar.str
  | .url => m.url.map Scalar.str

/-- The patch entry of a translator-routed field: absent,
present-null, or present-value. -/
def patchField (p : MoviePartial) (f : MField) : Option (Option Scalar) :=
  match f with
  | .aliases => p.aliases.map (fun o => o.map Scalar.str)
  | .duration => p.duration.map (fun o => o.map Scalar.int)
  | .date => p.date.map (fun o => o.map Scalar.str)
  | .rating => p.rating.map (fun o => o.map Scalar.int)
  | .studio_id => p.studio_id.map (fun o => o.map Scalar.int)
  | .director => p.director.map (fun o => o.map Scalar.str)
  | .synopsis => p.synopsis.map (fun o => o.map Scalar.str)
  | .url => p.url.map (fun o => o.map Scalar.str)

/-- The wire value of a translator-routed field in a MovieUpdateInput
(the studio id string is parsed as the resolver does). -/
def updateInputField (input : MovieUpdateInput) (f : MField) : Option Scalar :=
  match f with
  | .aliases => input.aliases.map Scalar.str
  | .duration => input.duration.map Scalar.int
  | .date => input.date.map Scalar.str
  | .rating => input.rating.map Scalar.int
  | .studio_id => input.studio_id.map (fun s => Scalar.int (parseInt64 s))
  | .director => input.director.map Scalar.str
  | .synopsis => input.synopsis.map Scalar.str
  | .url => input.url.map Scalar.str

/-- A concrete movie row used by witnesses. -/
def sampleMovie : Movie :=
  { id := 1
    checksum := MD5FromString "Episode 1"
    name := some "Episode 1"
    aliases := some "E1"
    duration := some 90
    date := none
    rating := some 5
    studio_id := none
    director := none
    synopsis := none
    url := none
    created_at := 10
    updated_at := 10 }

/-- A second concrete movie row used by witnesses. -/
def sampleMovie2 : Movie :=
  { id := 2
    checksum := MD5FromString "Episode 2"
    name := some "Episode 2"
    aliases := none
    duration := none
    date := none
    rating := none
    studio_id := none
    director := none
    synopsis := none
    url := none
    created_at := 11
    updated_at := 11 }

/-- An empty database. -/
def emptyDB : DB :=
  { movies := []
    movies_scenes := []
    movies_images := []
    nextId := 1
    failIds := [] }

/-- A database holding just sampleMovie and no sidecar row. -/
def dbOne : DB :=
  { movies := [sampleMovie]
    movies_scenes := []
    movies_images := []
    nextId := 2
    failIds := [] }

/-- A database holding both sample movies, join rows and no failures. -/
def dbTwo : DB :=
  { movies := [sampleMovie, sampleMovie2]
    movies_scenes := [(1, 10), (2, 11)]
    movies_images := []
    nextId := 3
    failIds := [] }

/-- Like dbTwo but the storage engine fails any delete on id 2. -/
def dbTwoFail : DB :=
  { movies := [sampleMovie, sampleMovie2]
    movies_scenes := [(1, 10), (2, 11)]
    movies_images := []
    nextId := 3
    failIds := [2] }

/-- A concrete update input carrying an explicit null aliases value and
a name change, used by witnesses. -/
def sampleUpdateInput : MovieUpdateInput :=
  { id := 1, name := some "Episode One" }

/-- A concrete create input with a null front image and a non-null back
image, used by witnesses. -/
def sampleCreateInput : MovieCreateInput :=
  { name := "Episode 3", back_image := some "back-bytes" }

/-- A database where movie 1 has a stored sidecar row with both images. -/
def dbImg : DB :=
  { movies := [sampleMovie]
    movies_scenes := []
    movies_images := [(1, some [1, 2], some [3])]
    nextId := 2
    failIds := [] }

/-- A find filter requesting a non-name sort key descending. -/
def sortFilter : FindFilterType :=
  { sort := some "rating", direction := some SortDirectionEnum.DESC }

/-- A concrete patch targeting id 1 with only the timestamp present. -/
def samplePatch : MoviePartial :=
  { id := 1
    checksum := none
    name := none
    aliases := none
    duration := none
    date := none
    rating := none
    studio_id := none
    director := none
    synopsis := none
    url := none
    updated_at := some 20 }

theorem mem_keyIf {s a : String} {b : Bool} : a ∈ keyIf b s ↔ b = true ∧ a = s := by
  cases b <;> simp [keyIf]

theorem applySet_preserves_id (p : MoviePartial) (m : Movie) :
    (applySet p m).id = m.id := rfl

theorem find?_append_of_none {A : Type} (p : A → Bool) (l1 l2 : List A)
    (h : l1.find? p = none) : (l1 ++ l2).find? p = l2.find? p := by
  induction l1 with
  | nil => simp
  | cons a l ih =>
    cases hp : p a with
    | true => simp [List.find?_cons, hp] at h
    | false =>
      simp only [List.find?_cons, hp] at h
      simp only [List.cons_append, List.find?_cons, hp]
      exact ih h

theorem getImageRow_updateImages (movieID : Nat) (f b : GoBytes) (db : DB) :
    getImageRow movieID (MovieQueryBuilder.UpdateMovieImages movieID f b db)
      = some (movieID, f, b) := by
  have hpre : ((db.movies_images.filter (fun r => r.1 != movieID)).find?
      (fun r => r.1 == movieID)) = none := by
    simp only [List.find?_eq_none, List.mem_filter, bne_iff_ne]
    intro r hr
    simp [hr.2]
  simp only [getImageRow, MovieQueryBuilder.UpdateMovieImages,
    MovieQueryBuilder.DestroyMovieImages]
  rw [find?_append_of_none _ _ _ hpre]
  simp [List.find?_cons]

theorem getImageRow_destroyImages (movieID : Nat) (db : DB) :
    getImageRow movieID (MovieQueryBuilder.DestroyMovieImages movieID db) = none := by
  simp only [getImageRow, MovieQueryBuilder.DestroyMovieImages,
    List.find?_eq_none, List.mem_filter, bne_iff_ne]
  intro r hr
  simp [hr.2]

theorem getFront_updateImages (movieID : Nat) (f b : GoBytes) (db : DB) :
    MovieQueryBuilder.GetFrontImage movieID
      (MovieQueryBuilder.UpdateMovieImages movieID f b db) = f := by
  simp [MovieQueryBuilder.GetFrontImage, getImageRow_updateImages]

theorem getBack_updateImages (movieID : Nat) (f b : GoBytes) (db : DB) :
    MovieQueryBuilder.GetBackImage movieID
      (MovieQueryBuilder.UpdateMovieImages movieID f b db) = b := by
  simp [MovieQueryBuilder.GetBackImage, getImageRow_updateImages]

theorem find?_movies_map_update (p : MoviePartial) (l : List Movie) (i : Nat) :
    (l.map (fun m => if m.id = p.id then applySet p m else m)).find?
        (fun m => m.id == i)
      = (l.find? (fun m => m.id == i)).map
          (fun m => if m.id = p.id then applySet p m else m) := by
  induction l with
  | nil => simp
  | cons a l ih =>
    have hid : (if a.id = p.id then applySet p a else a).id = a.id := by
      split <;> rfl
    cases h : (a.id == i) with
    | true =>
      simp only [List.map_cons, List.find?_cons, hid, h]
      rfl
    | false =>
      simp only [List.map_cons, List.find?_cons, hid, h]
      exact ih

theorem update_of_missing (p : MoviePartial) (db : DB)
    (h : MovieQueryBuilder.Find p.id db = none) :
    MovieQueryBuilder.Update p db = (Except.ok none, db) := by
  have hall : ∀ m ∈ db.movies, (m.id == p.id) = false := by
    intro m hm
    have := List.find?_eq_none.mp h m hm
    simpa using this
  have hmap : db.movies.map (fun m => if m.id = p.id then applySet p m else m)
      = db.movies := by
    rw [show db.movies.map (fun m => if m.id = p.id then applySet p m else m)
        = db.movies.map id from
      List.map_congr_left (fun m hm => by
        have : ¬ (m.id = p.id) := by simpa using hall m hm
        simp [this])]
    exact List.map_id db.movies
  simp only [MovieQueryBuilder.Update, hmap]
  show (Except.ok (MovieQueryBuilder.Find p.id db), db) = (Except.ok none, db)
  rw [h]

theorem update_of_found (p : MoviePartial) (db : DB) (m : Movie)
    (h : MovieQueryBuilder.Find p.id db = some m) :
    (MovieQueryBuilder.Update p db).1 = Except.ok (some (applySet p m)) := by
  have h2 : db.movies.find? (fun mv => mv.id == p.id) = some m := h
  have hm := List.find?_some h2
  have hmid : m.id = p.id := by simpa using hm
  simp only [MovieQueryBuilder.Update, MovieQueryBuilder.Find] at h ⊢
  rw [find?_movies_map_update, h]
  simp [hmid]

theorem destroy_ok (id : Nat) (db : DB) (h : db.failIds.contains id = false) :
    MovieQueryBuilder.Destroy id db = Except.ok
      { db with movies_scenes := db.movies_scenes.filter (fun r => r.1 != id),
                movies := db.movies.filter (fun m => m.id != id) } := by
  have h2 : id ∉ db.failIds := by simpa using h
  simp [MovieQueryBuilder.Destroy, executeDeleteQuery, h2]

theorem destroy_err (id : Nat) (db : DB) (h : db.failIds.contains id = true) :
    MovieQueryBuilder.Destroy id db = Except.error "storage error" := by
  have h2 : id ∈ db.failIds := by simpa using h
  simp [MovieQueryBuilder.Destroy, executeDeleteQuery, h2]

theorem destroyLoop_ok (ids : List Nat) (db : DB)
    (h : ∀ i ∈ ids, db.failIds.contains i = false) :
    destroyLoop ids db = Except.ok
      { db with movies := db.movies.filter (fun m => !(ids.contains m.id)),
                movies_scenes := db.movies_scenes.filter (fun r => !(ids.contains r.1)) } := by
  induction ids generalizing db with
  | nil => simp [destroyLoop]
  | cons id rest ih =>
    have hok := destroy_ok id db (h id (by simp))
    rw [destroyLoop, hok]
    show destroyLoop rest _ = _
    rw [ih { db with movies := db.movies.filter (fun m => m.id != id),
                     movies_scenes := db.movies_scenes.filter (fun r => r.1 != id) }
          (fun i hi => h i (by simp [hi]))]
    congr 1
    refine DB.mk.injEq .. |>.mpr ?_
    refine ⟨?_, ?_, rfl, rfl, rfl⟩
    · rw [List.filter_filter]
      apply List.filter_congr
      intro m _
      by_cases hmi : m.id = id <;> simp [hmi, List.contains_cons, Bool.not_or]
    · rw [List.filter_filter]
      apply List.filter_congr
      intro r _
      by_cases hri : r.1 = id <;> simp [hri, List.contains_cons, Bool.not_or]

theorem destroyLoop_err (ids : List Nat) (db : DB)
    (h : ∃ i ∈ ids, db.failIds.contains i = true) :
    destroyLoop ids db = Except.error "storage error" := by
  induction ids generalizing db with
  | nil => simp at h
  | cons id rest ih =>
    cases hid : db.failIds.contains id with
    | true =>
      rw [destroyLoop, destroy_err id db hid]
    | false =>
      obtain ⟨i, hi, hf⟩ := h
      rcases List.mem_cons.mp hi with rfl | hmem
      · rw [hf] at hid
        exact absurd hid (by simp)
      · rw [destroyLoop, destroy_ok id db hid]
        exact ih _ ⟨i, hmem, hf⟩

theorem findMany_ok (ids : List Nat) (db : DB)
    (h : ∀ i ∈ ids, (MovieQueryBuilder.Find i db).isSome = true) :
    MovieQueryBuilder.FindMany ids db
      = Except.ok (ids.filterMap (fun i => MovieQueryBuilder.Find i db)) := by
  induction ids with
  | nil => simp [MovieQueryBuilder.FindMany]
  | cons id rest ih =>
    obtain ⟨m, hm⟩ := Option.isSome_iff_exists.mp (h id (by simp))
    rw [MovieQueryBuilder.FindMany, hm]
    rw [ih (fun i hi => h i (by simp [hi]))]
    simp [List.filterMap_cons, hm, Except.map]

theorem findMany_ids (ids : List Nat) (db : DB) :
    (ids.filterMap (fun i => MovieQueryBuilder.Find i db)).map Movie.id
      = ids.filter (fun i => (MovieQueryBuilder.Find i db).isSome) := by
  induction ids with
  | nil => simp
  | cons id rest ih =>
    cases hm : MovieQueryBuilder.Find id db with
    | none => simp [List.filterMap_cons, List.filter_cons, hm, ih]
    | some m =>
      have h2 : db.movies.find? (fun mv => mv.id == id) = some m := hm
      have hmid : m.id = id := by simpa using List.find?_some h2
      simp [List.filterMap_cons, List.filter_cons, hm, ih, hmid]

theorem patchField_absent (inputMap : List String) (input : MovieUpdateInput)
    (now : Nat) (f : MField) (h : inputMap.contains (MField.col f) = false) :
    patchField (movieUpdatePatch inputMap input now) f = none := by
  cases f <;>
    simp_all [movieUpdatePatch, translateField, patchField, MField.col]

theorem patchField_null (inputMap : List String) (input : MovieUpdateInput)
    (now : Nat) (f : MField) (hc : inputMap.contains (MField.col f) = true)
    (hv : updateInputField input f = none) :
    patchField (movieUpdatePatch inputMap input now) f = some none := by
  cases f <;>
    simp_all [movieUpdatePatch, translateField, patchField, MField.col,
      updateInputField, Option.map_eq_none']

theorem applySet_absent (p : MoviePartial) (m : Movie) (f : MField)
    (h : patchField p f = none) :
    movieField (applySet p m) f = movieField m f := by
  cases f <;>
    (simp only [patchField, Option.map_eq_none'] at h
     simp [applySet, movieField, h])

theorem applySet_null (p : MoviePartial) (m : Movie) (f : MField)
    (h : patchField p f = some none) :
    movieField (applySet p m) f = none := by
  cases f <;>
    (simp only [patchField, Option.map_eq_some'] at h
     obtain ⟨o, ho, ho2⟩ := h
     simp only [Option.map_eq_none'] at ho2
     subst ho2
     simp [applySet, movieField, ho])

theorem col_mem_sqlGenKeys (p : MoviePartial) (f : MField) :
    MField.col f ∈ SQLGenKeysPartial p ↔ (patchField p f).isSome = true := by
  cases f <;>
    simp [SQLGenKeysPartial, mem_keyIf, MField.col, patchField, List.mem_append]

theorem findMany_failfast (pre post : List Nat) (i : Nat) (db : DB)
    (hpre : ∀ j ∈ pre, (MovieQueryBuilder.Find j db).isSome = true)
    (hi : MovieQueryBuilder.Find i db = none) :
    MovieQueryBuilder.FindMany (pre ++ i :: post) db
      = Except.error ("movie with id " ++ toString i ++ " not found") := by
  induction pre with
  | nil => rw [List.nil_append, MovieQueryBuilder.FindMany, hi]
  | cons a pre ih =>
    obtain ⟨m, hm⟩ := Option.isSome_iff_exists.mp (hpre a (by simp))
    rw [List.cons_append, MovieQueryBuilder.FindMany, hm,
      ih (fun j hj => hpre j (by simp [hj]))]
    rfl

theorem isSome_of_goLen_ne (b : GoBytes) (h : goLen b ≠ 0) : b.isSome = true := by
  cases b with
  | none => simp [goLen] at h
  | some l => rfl

theorem defaultImage_nonempty : 0 < (ProcessBase64Image DefaultMovieImage).length := by
  decide

theorem movieCreate_shape (input : MovieCreateInput) (now : Nat) (db : DB)
    (hfresh : db.movies.all (fun mv => mv.id != db.nextId) = true) :
    (MovieCreate input now db).map Prod.fst
      = Except.ok (createdMovie input now db.nextId) := by
  have hpre : db.movies.find? (fun mv => mv.id == db.nextId) = none := by
    rw [List.find?_eq_none]
    intro mv hmv
    have := List.all_eq_true.mp hfresh mv hmv
    simpa using this
  have hfind : MovieQueryBuilder.Find db.nextId
      { db with movies := db.movies ++ [createdMovie input now db.nextId],
                nextId := db.nextId + 1 }
      = some (createdMovie input now db.nextId) := by
    show (db.movies ++ [createdMovie input now db.nextId]).find?
        (fun mv => mv.id == db.nextId) = _
    rw [find?_append_of_none _ _ _ hpre]
    simp [createdMovie, List.find?_cons]
  have hc : MovieQueryBuilder.Create (createdMovie input now 0) db
      = (some (createdMovie input now db.nextId),
         { db with movies := db.movies ++ [createdMovie input now db.nextId],
                   nextId := db.nextId + 1 }) := by
    show (MovieQueryBuilder.Find db.nextId
        { db with movies := db.movies ++ [createdMovie input now db.nextId],
                  nextId := db.nextId + 1 },
      ({ db with movies := db.movies ++ [createdMovie input now db.nextId],
                 nextId := db.nextId + 1 } : DB)) = _
    rw [hfind]
  simp only [MovieCreate, hc]
  split <;> split <;> rfl

/-- C1: for every update payload, a translator-routed field absent from the
explicit-presence set never appears in the generated UPDATE SET-list and
Update leaves its stored column unchanged in every row; a field present in
the set with an explicit null wire value appears in the SET-list and the
write sets its column to NULL. -/
theorem c1_update_setlist_presence (inputMap : List String)
    (input : MovieUpdateInput) (now : Nat) (db : DB) (m : Movie) (f : MField) :
    (inputMap.contains (MField.col f) = false →
      MField.col f ∉ SQLGenKeysPartial (movieUpdatePatch inputMap input now) ∧
      ((MovieQueryBuilder.Update (movieUpdatePatch inputMap input now) db).2.movies.map
          (fun mv => movieField mv f)
        = db.movies.map (fun mv => movieField mv f)))
  ∧ (inputMap.contains (MField.col f) = true → updateInputField input f = none →
      MField.col f ∈ SQLGenKeysPartial (movieUpdatePatch inputMap input now) ∧
      movieField (applySet (movieUpdatePatch inputMap input now) m) f = none) := by
  constructor
  · intro h
    have hp := patchField_absent inputMap input now f h
    constructor
    · rw [col_mem_sqlGenKeys]
      simp [hp]
    · have hmovies : (MovieQueryBuilder.Update (movieUpdatePatch inputMap input now) db).2.movies
          = db.movies.map (fun mv =>
              if mv.id = (movieUpdatePatch inputMap input now).id
              then applySet (movieUpdatePatch inputMap input now) mv else mv) := rfl
      rw [hmovies, List.map_map]
      apply List.map_congr_left
      intro mv _
      simp only [Function.comp_apply]
      by_cases hcid : mv.id = (movieUpdatePatch inputMap input now).id
      · rw [if_pos hcid]
        exact applySet_absent _ _ _ hp
      · rw [if_neg hcid]
  · intro hc hv
    have hp := patchField_null inputMap input now f hc hv
    exact ⟨(col_mem_sqlGenKeys _ f).mpr (by simp [hp]), applySet_null _ _ _ hp⟩

/-- Witness for C1: the aliases field is in the presence set with a null
wire value, so it is in the SET-list and the write nulls the column. -/
theorem c1_update_setlist_presence_witness :
    "aliases" ∈ SQLGenKeysPartial (movieUpdatePatch ["aliases"] sampleUpdateInput 20)
    ∧ movieField (applySet (movieUpdatePatch ["aliases"] sampleUpdateInput 20) sampleMovie)
        MField.aliases = none :=
  (c1_update_setlist_presence ["aliases"] sampleUpdateInput 20 dbOne sampleMovie
      MField.aliases).2 (by decide) rfl

/-- C3 counterexample: updating a patch whose id matches no stored row
returns an ok result carrying a nil record, not a NotFoundError. -/
theorem c3_update_missing_counterexample :
    MovieQueryBuilder.Update samplePatch emptyDB = (Except.ok none, emptyDB) := rfl

/-- C3 (amended): when no row matches the patch id, Update returns a nil
record and a nil error and leaves the state unchanged; the returned value
is always the re-read of the patched id against the post-update state, so
when a row matches it is the full row post-update. -/
theorem c3_update_missing_returns_nil (p : MoviePartial) (db : DB) (m : Movie) :
    (MovieQueryBuilder.Find p.id db = none →
      MovieQueryBuilder.Update p db = (Except.ok none, db))
  ∧ ((MovieQueryBuilder.Update p db).1
      = Except.ok (MovieQueryBuilder.Find p.id (MovieQueryBuilder.Update p db).2))
  ∧ (MovieQueryBuilder.Find p.id db = some m →
      (MovieQueryBuilder.Update p db).1 = Except.ok (some (applySet p m))) :=
  ⟨update_of_missing p db, rfl, update_of_found p db m⟩

/-- Witness for C3 (amended): a matching row is updated and returned. -/
theorem c3_update_missing_returns_nil_witness :
    (MovieQueryBuilder.Update samplePatch dbOne).1
      = Except.ok (some (applySet samplePatch sampleMovie)) :=
  (c3_update_missing_returns_nil samplePatch dbOne sampleMovie).2.2 rfl

/-- C4 counterexample: hydration of id 1 against the empty database fails,
yet the hydrated list still has an entry (a nil record) for that id, so
the failed id is not skipped. -/
theorem c4_hydration_nil_counterexample :
    MovieQueryBuilder.Find 1 emptyDB = none
    ∧ queryHydrate [1] emptyDB = [none] :=
  ⟨rfl, rfl⟩

/-- C4 (amended): a hydration failure is not skipped: the Find error is
discarded and a nil record is appended, so the returned list has exactly
one entry per id of the id-query result, the entry at position k being the
Find result for the k-th id (nil when that id has no row). -/
theorem c4_hydration_appends_nil (ids : List Nat) (db : DB) (k : Nat) :
    (queryHydrate ids db).length = ids.length
  ∧ (queryHydrate ids db)[k]?
      = (ids[k]?).map (fun i => MovieQueryBuilder.Find i db) := by
  constructor
  · simp [queryHydrate]
  · simp [queryHydrate]

/-- C5: a bulk destroy whose batch contains an id on which the delete fails
rolls the whole transaction back (the returned state is the original one,
so earlier ids stay undeleted) and returns false; when no delete fails the
call returns true and no batched id keeps a movie row or a join row. -/
theorem c5_movies_destroy_atomic (ids : List Nat) (db : DB) :
    ((∃ i ∈ ids, db.failIds.contains i = true) →
      MoviesDestroy ids db = (false, db))
  ∧ ((∀ i ∈ ids, db.failIds.contains i = false) →
      (MoviesDestroy ids db).1 = true
      ∧ (MoviesDestroy ids db).2.movies.all (fun m => !(ids.contains m.id)) = true
      ∧ (MoviesDestroy ids db).2.movies_scenes.all (fun r => !(ids.contains r.1)) = true) := by
  constructor
  · intro h
    simp [MoviesDestroy, destroyLoop_err ids db h]
  · intro h
    have hok := destroyLoop_ok ids db h
    simp only [MoviesDestroy, hok]
    refine ⟨by trivial, ?_, ?_⟩
    · rw [List.all_eq_true]
      intro m hm
      exact (List.mem_filter.mp hm).2
    · rw [List.all_eq_true]
      intro r hr
      exact (List.mem_filter.mp hr).2

/-- Witness for C5: the delete of id 2 fails, so destroying the batch of
ids 1 and 2 returns false with the original state (id 1 not deleted). -/
theorem c5_movies_destroy_atomic_witness :
    MoviesDestroy [1, 2] dbTwoFail = (false, dbTwoFail) :=
  (c5_movies_destroy_atomic [1, 2] dbTwoFail).1 ⟨2, by decide, by decide⟩

/-- C6: when the engine does not fail, Destroy succeeds and its result is
the original state with the join rows referencing the id removed and the
movie row removed (the entity delete is applied to the join-filtered
state, in that order); destroying an id with no movie row and no join rows
succeeds and changes nothing. -/
theorem c6_destroy_joins_then_row (id : Nat) (db : DB)
    (h : db.failIds.contains id = false) :
    MovieQueryBuilder.Destroy id db = Except.ok
      { db with movies_scenes := db.movies_scenes.filter (fun r => r.1 != id),
                movies := db.movies.filter (fun m => m.id != id) }
  ∧ (db.movies.all (fun m => m.id != id) = true →
     db.movies_scenes.all (fun r => r.1 != id) = true →
     MovieQueryBuilder.Destroy id db = Except.ok db) := by
  refine ⟨destroy_ok id db h, fun hm hs => ?_⟩
  rw [destroy_ok id db h]
  congr 1
  refine DB.mk.injEq .. |>.mpr ⟨?_, ?_, rfl, rfl, rfl⟩
  · exact List.filter_eq_self.mpr (List.all_eq_true.mp hm)
  · exact List.filter_eq_self.mpr (List.all_eq_true.mp hs)

/-- Witness for C6: destroying the absent id 5 leaves the state unchanged
and reports no error. -/
theorem c6_destroy_joins_then_row_witness :
    MovieQueryBuilder.Destroy 5 dbOne = Except.ok dbOne :=
  (c6_destroy_joins_then_row 5 dbOne (by decide)).2 (by decide) (by decide)

/-- C7: when every id has a row, FindMany returns the rows ordered as the
input id list; when the id list decomposes as present ids followed by a
missing id, FindMany returns the not-found error naming that first missing
id and no partial list. -/
theorem c7_findmany_ordered_failfast (ids : List Nat) (db : DB)
    (pre post : List Nat) (i : Nat) :
    ((∀ j ∈ ids, (MovieQueryBuilder.Find j db).isSome = true) →
      MovieQueryBuilder.FindMany ids db
        = Except.ok (ids.filterMap (fun j => MovieQueryBuilder.Find j db))
      ∧ (ids.filterMap (fun j => MovieQueryBuilder.Find j db)).map Movie.id = ids)
  ∧ (ids = pre ++ i :: post →
     (∀ j ∈ pre, (MovieQueryBuilder.Find j db).isSome = true) →
     MovieQueryBuilder.Find i db = none →
     MovieQueryBuilder.FindMany ids db
       = Except.error ("movie with id " ++ toString i ++ " not found")) := by
  constructor
  · intro h
    refine ⟨findMany_ok ids db h, ?_⟩
    rw [findMany_ids]
    exact List.filter_eq_self.mpr h
  · rintro rfl hpre hi
    exact findMany_failfast pre post i db hpre hi

/-- Witness for C7: both ids have rows and come back in input order. -/
theorem c7_findmany_ordered_failfast_witness :
    MovieQueryBuilder.FindMany [2, 1] dbTwo
      = Except.ok ([2, 1].filterMap (fun j => MovieQueryBuilder.Find j dbTwo))
    ∧ ([2, 1].filterMap (fun j => MovieQueryBuilder.Find j dbTwo)).map Movie.id
      = [2, 1] :=
  (c7_findmany_ordered_failfast [2, 1] dbTwo [] [] 0).1 (by decide)

/-- C8: with no filter the sort clause is the natural-sort name ascending
clause; the same holds when a filter sets neither sort nor direction; any
filter whose effective sort key is the name uses the NATURAL_CS collation
with the requested direction; any other sort key yields the standard
clause with no collation override. -/
theorem c8_movie_sort_clause (ff : FindFilterType) :
    getMovieSort none = " ORDER BY movies.name COLLATE NATURAL_CS ASC"
  ∧ (ff.sort = none → ff.direction = none →
      getMovieSort (some ff) = " ORDER BY movies.name COLLATE NATURAL_CS ASC")
  ∧ (ff.GetSort "name" = "name" →
      getMovieSort (some ff)
        = " ORDER BY movies.name COLLATE NATURAL_CS " ++ ff.GetDirection)
  ∧ (ff.GetSort "name" ≠ "name" →
      getMovieSort (some ff) = getSort (ff.GetSort "name") ff.GetDirection "movies"
      ∧ getMovieSort (some ff)
        = " ORDER BY movies." ++ ff.GetSort "name" ++ " " ++ ff.GetDirection) := by
  refine ⟨rfl, ?_, ?_, ?_⟩
  · intro h1 h2
    simp [getMovieSort, FindFilterType.GetSort, FindFilterType.GetDirection,
      h1, h2, getColumn]
  · intro h
    simp [getMovieSort, h, getColumn]
  · intro h
    constructor
    · simp [getMovieSort, h]
    · simp [getMovieSort, h, getSort]

/-- Witness for C8: a rating-descending filter gets the standard clause. -/
theorem c8_movie_sort_clause_witness :
    getMovieSort (some sortFilter) = getSort "rating" "DESC" "movies"
    ∧ getMovieSort (some sortFilter)
      = " ORDER BY movies." ++ "rating" ++ " " ++ "DESC" :=
  (c8_movie_sort_clause sortFilter).2.2.2 (by decide)

/-- C9: a create stores the checksum derived from the hashed name next to
the name; an update supplying a (non-null) name writes the recomputed
checksum of the new name together with the new name into the re-read row. -/
theorem c9_checksum_from_name (input : MovieCreateInput) (now : Nat) (db : DB)
    (movie : Movie) (db2 : DB) (inputMap : List String)
    (uinput : MovieUpdateInput) (n : String) (m : Movie) :
    (db.movies.all (fun mv => mv.id != db.nextId) = true →
     MovieCreate input now db = Except.ok (movie, db2) →
     movie.checksum = MD5FromString input.name ∧ movie.name = some input.name)
  ∧ (uinput.name = some n →
     MovieQueryBuilder.Find uinput.id db = some m →
     (MovieQueryBuilder.Update (movieUpdatePatch inputMap uinput now) db).1
       = Except.ok (some (applySet (movieUpdatePatch inputMap uinput now) m))
     ∧ (applySet (movieUpdatePatch inputMap uinput now) m).checksum = MD5FromString n
     ∧ (applySet (movieUpdatePatch inputMap uinput now) m).name = some n) := by
  constructor
  · intro hfresh hok
    have hshape := movieCreate_shape input now db hfresh
    rw [hok] at hshape
    have hmovie : movie = createdMovie input now db.nextId := by
      simpa [Except.map] using hshape
    subst hmovie
    exact ⟨rfl, rfl⟩
  · intro hn hfind
    refine ⟨update_of_found _ db m hfind, ?_, ?_⟩
    · simp [applySet, movieUpdatePatch, hn]
    · simp [applySet, movieUpdatePatch, hn]

/-- Witness for C9: an update renaming movie 1 writes the hash of the new
name as the checksum, next to the new name. -/
theorem c9_checksum_from_name_witness :
    (MovieQueryBuilder.Update (movieUpdatePatch [] sampleUpdateInput 20) dbOne).1
      = Except.ok (some (applySet (movieUpdatePatch [] sampleUpdateInput 20) sampleMovie))
    ∧ (applySet (movieUpdatePatch [] sampleUpdateInput 20) sampleMovie).checksum
      = MD5FromString "Episode One"
    ∧ (applySet (movieUpdatePatch [] sampleUpdateInput 20) sampleMovie).name
      = some "Episode One" :=
  (c9_checksum_from_name sampleCreateInput 20 dbOne sampleMovie dbOne []
      sampleUpdateInput "Episode One" sampleMovie).2 rfl rfl

/-- C2 counterexample: an attachment write on the update path whose primary
payload is empty but non-nil, with a non-empty secondary, stores the empty
primary unchanged instead of the default payload. -/
theorem c2_attachment_default_counterexample :
    MovieQueryBuilder.GetFrontImage 1
        (movieUpdateImagesApply 1 true true (some []) (some [42]) dbOne)
      = some []
    ∧ some ([] : List Nat) ≠ some (ProcessBase64Image DefaultMovieImage) := by
  refine ⟨rfl, ?_⟩
  decide

/-- C2 (amended): an attachment write whose primary payload is Go-nil (a
present-but-empty payload is stored as-is) while the secondary payload is
non-empty stores the decoded default payload as the primary, never nil,
and the supplied bytes as the secondary; on the create path a null
front-image input with a non-null back-image input is replaced by the
default image before decoding, so the stored front is the decoded default
and the stored back the decoded supplied image. -/
theorem c2_attachment_default (input : MovieCreateInput) (now : Nat) (db : DB)
    (movie : Movie) (db2 : DB) (movieID : Nat) (bs : List Nat) (udb : DB) :
    (input.front_image = none → input.back_image ≠ none →
     MovieCreate input now db = Except.ok (movie, db2) →
     MovieQueryBuilder.GetFrontImage movie.id db2
        = some (ProcessBase64Image DefaultMovieImage)
     ∧ MovieQueryBuilder.GetBackImage movie.id db2
        = input.back_image.map ProcessBase64Image)
  ∧ (bs ≠ [] →
     MovieQueryBuilder.GetFrontImage movieID
        (movieUpdateImagesApply movieID true true none (some bs) udb)
        = some (ProcessBase64Image DefaultMovieImage)
     ∧ MovieQueryBuilder.GetBackImage movieID
        (movieUpdateImagesApply movieID true true none (some bs) udb)
        = some bs) := by
  constructor
  · intro hf hb hok
    obtain ⟨b, hbe⟩ : ∃ b, input.back_image = some b := by
      cases hbi : input.back_image with
      | none => exact absurd hbi hb
      | some b => exact ⟨b, rfl⟩
    simp only [MovieCreate, hf, hbe, Option.isNone_none, Option.isSome_some,
      Bool.and_self, if_true, Option.map_some'] at hok
    rcases hc : MovieQueryBuilder.Create (createdMovie input now 0) db with ⟨omv, dbc⟩
    rw [hc] at hok
    cases omv with
    | none => exact absurd hok (by simp)
    | some mv =>
      have hgl : 0 < goLen (some (ProcessBase64Image DefaultMovieImage)) :=
        defaultImage_nonempty
      have hok3 : (if 0 < goLen (some (ProcessBase64Image DefaultMovieImage)) then
          Except.ok (mv,
            MovieQueryBuilder.UpdateMovieImages mv.id
              (some (ProcessBase64Image DefaultMovieImage))
              (some (ProcessBase64Image b)) dbc)
          else Except.ok (mv, dbc)) = Except.ok (movie, db2) := hok
      rw [if_pos hgl] at hok3
      injection hok3 with h1
      injection h1 with h2 h3
      subst h2
      subst h3
      rw [hbe]
      exact ⟨getFront_updateImages .., getBack_updateImages ..⟩
  · intro hbs
    have hbne : bs.length ≠ 0 := by simpa [List.length_eq_zero] using hbs
    have hblen : (bs.length == 0) = false := beq_eq_false_iff_ne.mpr hbne
    have happly : movieUpdateImagesApply movieID true true none (some bs) udb
        = MovieQueryBuilder.UpdateMovieImages movieID
            (some (ProcessBase64Image DefaultMovieImage)) (some bs) udb := by
      simp [movieUpdateImagesApply, goLen, hblen]
    rw [happly]
    exact ⟨getFront_updateImages .., getBack_updateImages ..⟩

/-- Witness for C2: an update write with a nil front payload and the
non-empty back payload of one byte stores the decoded default front and
the supplied back bytes. -/
theorem c2_attachment_default_witness :
    MovieQueryBuilder.GetFrontImage 1
        (movieUpdateImagesApply 1 true true none (some [7]) dbOne)
      = some (ProcessBase64Image DefaultMovieImage)
    ∧ MovieQueryBuilder.GetBackImage 1
        (movieUpdateImagesApply 1 true true none (some [7]) dbOne)
      = some [7] :=
  (c2_attachment_default sampleCreateInput 0 emptyDB sampleMovie emptyDB
      1 [7] dbOne).2 (by decide)

/-- C10 counterexample: with only the back image present and no stored
sidecar row, the read-back front is nil and the write substitutes the
default payload for it instead of preserving the read-back value. -/
theorem c10_sidecar_preserve_counterexample :
    MovieQueryBuilder.GetFrontImage 1 dbOne = none
    ∧ MovieQueryBuilder.GetFrontImage 1
        (movieUpdateImagesApply 1 false true none (some [7]) dbOne)
      = some (ProcessBase64Image DefaultMovieImage) :=
  ⟨rfl, rfl⟩

/-- C10 (amended): when exactly one of the two attachment fields is in the
presence set, the other attachment is first read back from the sidecar
table and re-inserted, preserving its stored value, except that a nil
front paired with a non-empty back is replaced by the decoded default
payload; and when both resulting payloads are empty the sidecar row is
deleted entirely rather than recreated with nulls. -/
theorem c10_sidecar_readback (movieID : Nat) (db : DB) (f b : GoBytes) :
    (goLen (MovieQueryBuilder.GetFrontImage movieID db) = 0 → goLen b = 0 →
      getImageRow movieID (movieUpdateImagesApply movieID false true f b db) = none)
  ∧ (MovieQueryBuilder.GetFrontImage movieID db = none → goLen b ≠ 0 →
      getImageRow movieID (movieUpdateImagesApply movieID false true f b db)
        = some (movieID, some (ProcessBase64Image DefaultMovieImage), b))
  ∧ ((MovieQueryBuilder.GetFrontImage movieID db).isSome = true →
      (goLen (MovieQueryBuilder.GetFrontImage movieID db) ≠ 0 ∨ goLen b ≠ 0) →
      getImageRow movieID (movieUpdateImagesApply movieID false true f b db)
        = some (movieID, MovieQueryBuilder.GetFrontImage movieID db, b))
  ∧ (goLen f = 0 → goLen (MovieQueryBuilder.GetBackImage movieID db) = 0 →
      getImageRow movieID (movieUpdateImagesApply movieID true false f b db) = none)
  ∧ (f = none → goLen (MovieQueryBuilder.GetBackImage movieID db) ≠ 0 →
      getImageRow movieID (movieUpdateImagesApply movieID true false f b db)
        = some (movieID, some (ProcessBase64Image DefaultMovieImage),
            MovieQueryBuilder.GetBackImage movieID db))
  ∧ (f.isSome = true →
      (goLen f ≠ 0 ∨ goLen (MovieQueryBuilder.GetBackImage movieID db) ≠ 0) →
      getImageRow movieID (movieUpdateImagesApply movieID true false f b db)
        = some (movieID, f, MovieQueryBuilder.GetBackImage movieID db)) := by
  refine ⟨?_, ?_, ?_, ?_, ?_, ?_⟩
  · intro h1 h2
    have happly : movieUpdateImagesApply movieID false true f b db
        = MovieQueryBuilder.DestroyMovieImages movieID db := by
      simp [movieUpdateImagesApply, h1, h2]
    rw [happly]
    exact getImageRow_destroyImages movieID db
  · intro h1 h2
    have hbt : (goLen b == 0) = false := beq_eq_false_iff_ne.mpr h2
    have hbs : b.isSome = true := isSome_of_goLen_ne b h2
    have happly : movieUpdateImagesApply movieID false true f b db
        = MovieQueryBuilder.UpdateMovieImages movieID
            (some (ProcessBase64Image DefaultMovieImage)) b db := by
      simp [movieUpdateImagesApply, h1, hbt, hbs, goLen]
      exact fun h => absurd h h2
    rw [happly]
    exact getImageRow_updateImages ..
  · intro h1 h2
    obtain ⟨x, hx⟩ := Option.isSome_iff_exists.mp h1
    rw [hx] at h2 ⊢
    have hdc : ((goLen (some x) == 0) && (goLen b == 0)) = false := by
      rcases h2 with h | h <;> simp [beq_eq_false_iff_ne.mpr h]
    have happly : movieUpdateImagesApply movieID false true f b db
        = MovieQueryBuilder.UpdateMovieImages movieID (some x) b db := by
      simp [movieUpdateImagesApply, hx, hdc]
    rw [happly]
    exact getImageRow_updateImages ..
  · intro h1 h2
    have happly : movieUpdateImagesApply movieID true false f b db
        = MovieQueryBuilder.DestroyMovieImages movieID db := by
      simp [movieUpdateImagesApply, h1, h2]
    rw [happly]
    exact getImageRow_destroyImages movieID db
  · intro h1 h2
    have hbt : (goLen (MovieQueryBuilder.GetBackImage movieID db) == 0) = false :=
      beq_eq_false_iff_ne.mpr h2
    have hbs : (MovieQueryBuilder.GetBackImage movieID db).isSome = true :=
      isSome_of_goLen_ne _ h2
    have happly : movieUpdateImagesApply movieID true false f b db
        = MovieQueryBuilder.UpdateMovieImages movieID
            (some (ProcessBase64Image DefaultMovieImage))
            (MovieQueryBuilder.GetBackImage movieID db) db := by
      simp [movieUpdateImagesApply, h1, hbt, hbs, goLen]
      exact fun h => absurd h h2
    rw [happly]
    exact getImageRow_updateImages ..
  · intro h1 h2
    obtain ⟨x, hx⟩ := Option.isSome_iff_exists.mp h1
    subst hx
    have hdc : ((goLen (some x) == 0)
        && (goLen (MovieQueryBuilder.GetBackImage movieID db) == 0)) = false := by
      rcases h2 with h | h <;> simp [beq_eq_false_iff_ne.mpr h]
    have happly : movieUpdateImagesApply movieID true false (some x) b db
        = MovieQueryBuilder.UpdateMovieImages movieID (some x)
            (MovieQueryBuilder.GetBackImage movieID db) db := by
      simp [movieUpdateImagesApply, hdc]
    rw [happly]
    exact getImageRow_updateImages ..

/-- Witness for C10: updating only the back image preserves the stored
front image bytes across the destroy-and-recreate of the sidecar row. -/
theorem c10_sidecar_readback_witness :
    getImageRow 1 (movieUpdateImagesApply 1 false true none (some [9]) dbImg)
      = some (1, some [1, 2], some [9]) :=
  (c10_sidecar_readback 1 dbImg none (some [9])).2.2.1 (by decide)
    (Or.inl (by decide))

end Stash
